import Mathlib

/-!
Shallow embedding of the Sleep As Android custom integration
(`custom_components/sleep_as_android`): the topic resolver and the sensor
registry from `__init__.py`, the event enumeration from `const.py`, and the
per-sensor message processing from `sensor.py`.

Python strings handled by the topic resolver are modelled as `List Char`,
so that Python's `s.split("/")` becomes `List.splitOn '/'` and
`"/".join(l)` becomes `List.intercalate ['/'] l`; for a one-character
separator these have exactly Python's semantics (in particular
`"".split("/") == [""]`).  Python dicts are association lists with unique
keys.  A Python operation that can raise an exception is modelled with
`Option` or `Except`, where `none` / `.error` stands for the raised
exception.
-/

/-- The closed enumeration `SleepTrackingEvent` from `const.py`. -/
inductive SleepTrackingEvent where
  | SLEEP_TRACKING_STARTED
  | SLEEP_TRACKING_STOPPED
  | SLEEP_TRACKING_PAUSED
  | SLEEP_TRACKING_RESUMED
  | ALARM_SNOOZE_CLICKED
  | ALARM_SNOOZE_CANCELED
  | TIME_TO_BED_ALARM_ALERT
  | ALARM_ALERT_START
  | ALARM_ALERT_DISMISS
  | ALARM_SKIP_NEXT
  | SHOW_SKIP_NEXT_ALARM
  | REM
  | SMART_PERIOD
  | BEFORE_SMART_PERIOD
  | LULLABY_START
  | LULLABY_STOP
  | LULLABY_VOLUME_DOWN
  | DEEP_SLEEP
  | LIGHT_SLEEP
  | AWAKE
  | NOT_AWAKE
  | APNEA_ALARM
  | ANTISNORING
  | SOUND_EVENT_SNORE
  | SOUND_EVENT_TALK
  | SOUND_EVENT_COUGH
  | SOUND_EVENT_BABY
  | SOUND_EVENT_LAUGH
  | BEFORE_ALARM
  | ALARM_RESCHEDULED
deriving DecidableEq

/-- String value of each enumeration member, as assigned in `const.py`. -/
def SleepTrackingEvent.value : SleepTrackingEvent → String
  | .SLEEP_TRACKING_STARTED => "sleep_tracking_started"
  | .SLEEP_TRACKING_STOPPED => "sleep_tracking_stopped"
  | .SLEEP_TRACKING_PAUSED => "sleep_tracking_paused"
  | .SLEEP_TRACKING_RESUMED => "sleep_tracking_resumed"
  | .ALARM_SNOOZE_CLICKED => "alarm_snooze_clicked"
  | .ALARM_SNOOZE_CANCELED => "alarm_snooze_canceled"
  | .TIME_TO_BED_ALARM_ALERT => "time_to_bed_alarm_alert"
  | .ALARM_ALERT_START => "alarm_alert_start"
  | .ALARM_ALERT_DISMISS => "alarm_alert_dismiss"
  | .ALARM_SKIP_NEXT => "alarm_skip_next"
  | .SHOW_SKIP_NEXT_ALARM => "show_skip_next_alarm"
  | .REM => "rem"
  | .SMART_PERIOD => "smart_period"
  | .BEFORE_SMART_PERIOD => "before_smart_period"
  | .LULLABY_START => "lullaby_start"
  | .LULLABY_STOP => "lullaby_stop"
  | .LULLABY_VOLUME_DOWN => "lullaby_volume_down"
  | .DEEP_SLEEP => "deep_sleep"
  | .LIGHT_SLEEP => "light_sleep"
  | .AWAKE => "awake"
  | .NOT_AWAKE => "not_awake"
  | .APNEA_ALARM => "apnea_alarm"
  | .ANTISNORING => "antisnoring"
  | .SOUND_EVENT_SNORE => "sound_event_snore"
  | .SOUND_EVENT_TALK => "sound_event_talk"
  | .SOUND_EVENT_COUGH => "sound_event_cough"
  | .SOUND_EVENT_BABY => "sound_event_baby"
  | .SOUND_EVENT_LAUGH => "sound_event_laugh"
  | .BEFORE_ALARM => "before_alarm"
  | .ALARM_RESCHEDULED => "alarm_rescheduled"

/-- All members of the enumeration, in declaration order (Python iterates an
enum class in declaration order, as in the dict comprehension building the
`SleepAsAndroidLastEvent` mapping). -/
def allEvents : List SleepTrackingEvent :=
  [ .SLEEP_TRACKING_STARTED, .SLEEP_TRACKING_STOPPED, .SLEEP_TRACKING_PAUSED,
    .SLEEP_TRACKING_RESUMED, .ALARM_SNOOZE_CLICKED, .ALARM_SNOOZE_CANCELED,
    .TIME_TO_BED_ALARM_ALERT, .ALARM_ALERT_START, .ALARM_ALERT_DISMISS,
    .ALARM_SKIP_NEXT, .SHOW_SKIP_NEXT_ALARM, .REM, .SMART_PERIOD,
    .BEFORE_SMART_PERIOD, .LULLABY_START, .LULLABY_STOP, .LULLABY_VOLUME_DOWN,
    .DEEP_SLEEP, .LIGHT_SLEEP, .AWAKE, .NOT_AWAKE, .APNEA_ALARM, .ANTISNORING,
    .SOUND_EVENT_SNORE, .SOUND_EVENT_TALK, .SOUND_EVENT_COUGH,
    .SOUND_EVENT_BABY, .SOUND_EVENT_LAUGH, .BEFORE_ALARM, .ALARM_RESCHEDULED ]

/-- Python's value lookup `SleepTrackingEvent(s)` for a string `s`: the
member whose `value` equals `s`; `none` models the `ValueError` that the
enum constructor raises when no member matches. -/
def SleepTrackingEvent.ofValue (s : String) : Option SleepTrackingEvent :=
  allEvents.find? (fun e => e.value == s)

/-- Decoded JSON values carried in an MQTT payload. -/
inductive Json where
  | str (s : String)
  | num (n : Int)
  | bool (b : Bool)
  | null
  | arr (xs : List Json)
  | obj (fields : List (String × Json))

/-- Python dict read `d[key]` / membership `key in d`, on an association
list with unique keys: the value at the first matching key, if any. -/
def dictGet {κ α : Type} [DecidableEq κ] : List (κ × α) → κ → Option α
  | [], _ => none
  | (k, v) :: d, key => if k = key then some v else dictGet d key

/-- Python's `d.pop(key)` with a default of `None`: the value removed (if
the key was present) together with the remaining dict. -/
def dictPop {κ α : Type} [DecidableEq κ] : List (κ × α) → κ → Option α × List (κ × α)
  | [], _ => (none, [])
  | (k, v) :: d, key =>
    if k = key then (some v, d)
    else ((dictPop d key).1, (k, v) :: (dictPop d key).2)

/-- Removal of a key from a dict, leaving the dict unchanged when the key
is absent. -/
def dictRemove {κ α : Type} [DecidableEq κ] : List (κ × α) → κ → List (κ × α)
  | [], _ => []
  | (k, v) :: d, key => if k = key then d else (k, v) :: dictRemove d key

/-- Host constant `STATE_UNKNOWN` used as the unknown-state sentinel. -/
def STATE_UNKNOWN : String := "unknown"

/-- Which concrete subclass a sensor instance belongs to, deciding which
override of the abstract message hook runs. -/
inductive SensorKind where
  | state
  | lastEvent
deriving DecidableEq

/-- Mutable attribute state of one sensor entity from `sensor.py`: the
constructor arguments of `SleepAsAndroidState` plus the attribute fields
its methods write (`_attr_native_value`, `_attr_extra_state_attributes`). -/
structure Sensor where
  device : List Char
  name : String
  icon : String
  kind : SensorKind
  mapping : List (SleepTrackingEvent × String)
  native_value : String
  extra_state_attributes : List (String × Json)

/-- Constructor of `SleepAsAndroidLastEvent`: identity mapping over the
whole enumeration, initial value `STATE_UNKNOWN`. -/
def SleepAsAndroidLastEvent_init (device : List Char) : Sensor :=
  { device := device
    name := "last_event"
    icon := "mdi:arrow-right-thick"
    kind := .lastEvent
    mapping := allEvents.map (fun e => (e, e.value))
    native_value := STATE_UNKNOWN
    extra_state_attributes := [] }

/-- Constructor of `SleepAsAndroidIsAsleep` with its four-entry mapping. -/
def SleepAsAndroidIsAsleep_init (device : List Char) : Sensor :=
  { device := device
    name := "is_asleep"
    icon := "mdi:sleep"
    kind := .state
    mapping := [ (.AWAKE, "awake"), (.NOT_AWAKE, "sleeping"),
                 (.SLEEP_TRACKING_STOPPED, STATE_UNKNOWN),
                 (.SLEEP_TRACKING_PAUSED, STATE_UNKNOWN) ]
    native_value := STATE_UNKNOWN
    extra_state_attributes := [] }

/-- Body of `SleepAsAndroidState._process_message`: when the event is a key
of the mapping, store the mapped value and call `async_write_ha_state`
(the second component counts those notification calls). -/
def State_process_message (sensor : Sensor) (event : SleepTrackingEvent) :
    Sensor × Nat :=
  match dictGet sensor.mapping event with
  | some v => ({ sensor with native_value := v }, 1)
  | none => (sensor, 0)

/-- Body of `SleepAsAndroidLastEvent._process_message`: unconditionally
replace the stored attribute map, then run the superclass body. -/
def LastEvent_process_message (sensor : Sensor) (event : SleepTrackingEvent)
    (values : List (String × Json)) : Sensor × Nat :=
  State_process_message { sensor with extra_state_attributes := values } event

/-- Dynamic dispatch of the abstract `_process_message` hook to the
override of the sensor's concrete class. -/
def dispatch_process_message (sensor : Sensor) (event : SleepTrackingEvent)
    (values : List (String × Json)) : Sensor × Nat :=
  match sensor.kind with
  | .state => State_process_message sensor event
  | .lastEvent => LastEvent_process_message sensor event values

/-- Raw message payload as seen after `json.loads`: either the decode
raised `JSONDecodeError`, or it produced a JSON object (the shape the
integration is documented to receive). -/
inductive Payload where
  | invalid
  | obj (fields : List (String × Json))

/-- Exception escaping the message handler. -/
inductive PyError where
  | valueError
deriving DecidableEq

/-- Outcome of one `process_message` call: the sensor afterwards, the
number of `async_write_ha_state` notifications, and the number of
`_LOGGER.warning` calls. -/
structure ProcResult where
  sensor : Sensor
  writes : Nat
  warnings : Nat

/-- Python's `event == 'Unknown'` test on the popped JSON value (a
non-string value never equals a string in Python). -/
def isUnknownLiteral : Json → Bool
  | .str s => s == "Unknown"
  | _ => false

/-- Python's `SleepTrackingEvent(event)` on the popped JSON value: value
lookup for strings, `ValueError` (here `none`) for everything else. -/
def SleepTrackingEvent.fromJson : Json → Option SleepTrackingEvent
  | .str s => SleepTrackingEvent.ofValue s
  | _ => none

/-- Shared `SleepAsAndroidSensor.process_message` from `sensor.py`:
decode JSON (warn and drop on failure), require the `event` key (warn and
drop when missing), pop it, treat the literal `Unknown` as a logged no-op,
and otherwise convert the value through the enum constructor — which
raises `ValueError` for a value outside the enumeration — before
dispatching to the concrete class hook. -/
def process_message (sensor : Sensor) (payload : Payload) :
    Except PyError ProcResult :=
  match payload with
  | .invalid => .ok ⟨sensor, 0, 1⟩
  | .obj fields =>
    match dictPop fields "event" with
    | (none, _) => .ok ⟨sensor, 0, 1⟩
    | (some ev, rest) =>
      if isUnknownLiteral ev then .ok ⟨sensor, 0, 1⟩
      else
        match SleepTrackingEvent.fromJson ev with
        | none => .error .valueError
        | some e =>
          let r := dispatch_process_message sensor e rest
          .ok ⟨r.1, r.2, 0⟩

/-- The device placeholder token `DEVICE_MACRO` from `const.py`. -/
def DEVICE_MACRO : List Char := "%%%device%%%".toList

/-- Loop body of `SleepAsAndroidInstance.device_position_in_topic`: count
segments until the first one equal to `DEVICE_MACRO`; when no segment
matches, the count of all segments. -/
def device_position_scan : List (List Char) → Nat
  | [] => 0
  | p :: ps => if p = DEVICE_MACRO then 0 else device_position_scan ps + 1

/-- Property `SleepAsAndroidInstance.device_position_in_topic` from
`__init__.py`. -/
def device_position_in_topic (configured_topic : List Char) : Nat :=
  device_position_scan (configured_topic.splitOn '/')

/-- Static method `SleepAsAndroidInstance.device_name_from_topic_and_position`
from `__init__.py`; `none` would model an `IndexError` from the final list
indexing. -/
def device_name_from_topic_and_position (topic : List Char) (position : Nat) :
    Option (List Char) :=
  let s := topic.splitOn '/'
  let pos := if s.length ≤ position then s.length - 1 else position
  s[pos]?

/-- Property `SleepAsAndroidInstance.topic_template` from `__init__.py`:
replace the segment at the device position by the MQTT wildcard and join;
the out-of-range assignment swallowed by `except IndexError: pass` is
exactly `List.set` leaving the list unchanged. -/
def topic_template (configured_topic : List Char) : List Char :=
  [('/' : Char)].intercalate
    ((configured_topic.splitOn '/').set
      (device_position_in_topic configured_topic) ['+'])

/-- The private registry `SleepAsAndroidInstance.__sensors`, a dict from
device name to that device's sensor list. -/
abbrev Registry := List (List Char × List Sensor)

/-- Method `SleepAsAndroidInstance.get_sensors` from `__init__.py`: on a
missing device create its canonical sensor list (one last-event sensor),
store it, and hand it to `async_add_entities`; the boolean records whether
this creation-and-registration branch ran. -/
def get_sensors (registry : Registry) (device : List Char) :
    List Sensor × Registry × Bool :=
  match dictGet registry device with
  | some ss => (ss, registry, false)
  | none =>
    let ss := [SleepAsAndroidLastEvent_init device]
    (ss, (device, ss) :: registry, true)

/-- Method `SleepAsAndroidInstance.remove_sensor` from `__init__.py`: strip
the integration name plus one character whenever the given name starts
with the integration name, then `dict.pop` with default `None`. -/
def remove_sensor (name : List Char) (registry : Registry)
    (sensor_name : List Char) : Option (List Sensor) × Registry :=
  let key :=
    if name.isPrefixOf sensor_name then sensor_name.drop (name.length + 1)
    else sensor_name
  dictPop registry key

/-! Support lemmas about splitting, scanning and the dict operations. -/

theorem splitOn_eq_splitOnP (x : Char) (xs : List Char) :
    xs.splitOn x = xs.splitOnP (fun c => c == x) := rfl

theorem splitOnP_sep_false {α : Type} (p : α → Bool) (xs : List α) :
    ∀ l ∈ xs.splitOnP p, ∀ a ∈ l, p a = false := by
  induction xs with
  | nil =>
    intro l hl a ha
    rw [List.splitOnP_nil] at hl
    simp only [List.mem_singleton] at hl
    subst hl
    simp at ha
  | cons x xs ih =>
    intro l hl a ha
    rw [List.splitOnP_cons] at hl
    by_cases hx : p x = true
    · rw [if_pos hx] at hl
      rcases List.mem_cons.mp hl with rfl | hl
      · simp at ha
      · exact ih l hl a ha
    · rw [if_neg hx] at hl
      cases hsp : xs.splitOnP p with
      | nil => exact absurd hsp (List.splitOnP_ne_nil p xs)
      | cons hd tl =>
        rw [hsp, List.modifyHead] at hl
        rcases List.mem_cons.mp hl with rfl | hl
        · rcases List.mem_cons.mp ha with rfl | ha
          · exact Bool.eq_false_iff.mpr hx
          · exact ih hd (hsp ▸ List.mem_cons_self hd tl) a ha
        · exact ih l (hsp ▸ List.mem_cons_of_mem hd hl) a ha

theorem splitOn_sep_not_mem (xs : List Char) :
    ∀ l ∈ xs.splitOn '/', '/' ∉ l := by
  intro l hl hmem
  have h := splitOnP_sep_false (fun c => c == '/') xs l
    (splitOn_eq_splitOnP '/' xs ▸ hl) '/' hmem
  simp at h

theorem splitOn_ne_nil (x : Char) (xs : List Char) : xs.splitOn x ≠ [] := by
  rw [splitOn_eq_splitOnP]
  exact List.splitOnP_ne_nil _ xs

theorem splitOn_length_pos (x : Char) (xs : List Char) :
    0 < (xs.splitOn x).length :=
  List.length_pos.mpr (splitOn_ne_nil x xs)

theorem device_position_scan_le (ls : List (List Char)) :
    device_position_scan ls ≤ ls.length := by
  induction ls with
  | nil => simp [device_position_scan]
  | cons p ps ih =>
    by_cases h : p = DEVICE_MACRO <;>
      simp only [device_position_scan, h, if_true, if_false, List.length_cons] <;>
        omega

theorem device_position_scan_lt_of_mem {ls : List (List Char)}
    (h : DEVICE_MACRO ∈ ls) : device_position_scan ls < ls.length := by
  induction ls with
  | nil => simp at h
  | cons p ps ih =>
    by_cases hp : p = DEVICE_MACRO
    · simp [device_position_scan, hp]
    · have hmem : DEVICE_MACRO ∈ ps := by
        rcases List.mem_cons.mp h with heq | hmem
        · exact absurd heq.symm hp
        · exact hmem
      have := ih hmem
      simp only [device_position_scan, if_neg hp, List.length_cons]
      omega

theorem device_position_scan_eq_length {ls : List (List Char)}
    (h : DEVICE_MACRO ∉ ls) : device_position_scan ls = ls.length := by
  induction ls with
  | nil => rfl
  | cons p ps ih =>
    have hp : p ≠ DEVICE_MACRO := fun hpe => h (hpe ▸ List.mem_cons_self p ps)
    have hmem : DEVICE_MACRO ∉ ps := fun hm => h (List.mem_cons_of_mem p hm)
    simp [device_position_scan, hp, ih hmem]

theorem device_position_scan_get {ls : List (List Char)}
    (h : DEVICE_MACRO ∈ ls) :
    ls[device_position_scan ls]? = some DEVICE_MACRO := by
  induction ls with
  | nil => simp at h
  | cons p ps ih =>
    by_cases hp : p = DEVICE_MACRO
    · simp [device_position_scan, hp]
    · have hmem : DEVICE_MACRO ∈ ps := by
        rcases List.mem_cons.mp h with heq | hmem
        · exact absurd heq.symm hp
        · exact hmem
      simp [device_position_scan, hp, ih hmem]

theorem device_position_scan_eq_findIdx (ls : List (List Char)) :
    device_position_scan ls = ls.findIdx (fun p => p == DEVICE_MACRO) := by
  induction ls with
  | nil => rfl
  | cons p ps ih =>
    rw [List.findIdx_cons]
    by_cases hp : p = DEVICE_MACRO
    · simp [device_position_scan, hp]
    · have hb : (p == DEVICE_MACRO) = false := beq_eq_false_iff_ne.mpr hp
      simp [device_position_scan, hp, hb, ih]

theorem dictPop_eq {κ α : Type} [DecidableEq κ] (d : List (κ × α)) (k : κ) :
    dictPop d k = (dictGet d k, dictRemove d k) := by
  induction d with
  | nil => rfl
  | cons p d ih =>
    obtain ⟨k₀, v⟩ := p
    by_cases h : k₀ = k
    · simp [dictPop, dictGet, dictRemove, h]
    · simp [dictPop, dictGet, dictRemove, h, ih]

theorem dictRemove_of_get_none {κ α : Type} [DecidableEq κ]
    {d : List (κ × α)} {k : κ} (h : dictGet d k = none) :
    dictRemove d k = d := by
  induction d with
  | nil => rfl
  | cons p d ih =>
    obtain ⟨k₀, v⟩ := p
    by_cases hk : k₀ = k
    · simp [dictGet, hk] at h
    · simp only [dictGet, if_neg hk] at h
      simp [dictRemove, hk, ih h]

/-! Claim theorems. -/

/-- C1: the claim says that a message whose `event` string lies outside the
closed enumeration (and is not the literal `Unknown`) never raises out of the
message-handling path.  The code disagrees: `SleepTrackingEvent(event)`
raises `ValueError` there, modelled here by the `.error` outcome of
`process_message` on such a payload. -/
theorem C1_unknown_event_raises :
    process_message (SleepAsAndroidLastEvent_init "phoneA".toList)
      (.obj [("event", .str "bogus_event")]) = .error .valueError := rfl

/-- C2 (amended): dispatching a recognized event to a sensor notifies
exactly once whenever the event is a key of the sensor's mapping table —
regardless of whether the mapped display value differs from the current
one — and not at all otherwise; the display value becomes the mapped value
when present, and the stored attribute map is replaced exactly for the
last-event sensor kind. -/
theorem C2_notify_on_mapped_event (sensor : Sensor) (event : SleepTrackingEvent)
    (values : List (String × Json)) :
    (dispatch_process_message sensor event values).2 =
      (if (dictGet sensor.mapping event).isSome then 1 else 0) ∧
    (dispatch_process_message sensor event values).1.native_value =
      ((dictGet sensor.mapping event).getD sensor.native_value) ∧
    (dispatch_process_message sensor event values).1.extra_state_attributes =
      (if sensor.kind = .lastEvent then values
       else sensor.extra_state_attributes) := by
  cases hk : sensor.kind <;>
    cases hg : dictGet sensor.mapping event <;>
      simp [dispatch_process_message, State_process_message,
        LastEvent_process_message, hk, hg]

/-- C2 counterexample against the claim as stated: after the is-asleep
sensor has processed `AWAKE` once, its display value is already `awake`,
yet processing `AWAKE` again — whose mapped value equals the current
value — still emits one state-change notification. -/
theorem C2_notify_cex :
    (dispatch_process_message (SleepAsAndroidIsAsleep_init "d".toList)
        .AWAKE []).1.native_value = "awake" ∧
    dictGet (dispatch_process_message (SleepAsAndroidIsAsleep_init "d".toList)
        .AWAKE []).1.mapping .AWAKE = some "awake" ∧
    (dispatch_process_message
      (dispatch_process_message (SleepAsAndroidIsAsleep_init "d".toList)
        .AWAKE []).1 .AWAKE []).2 = 1 :=
  ⟨rfl, rfl, rfl⟩

/-- C3: for a template with exactly one placeholder segment and a device
name free of the separator, substituting the device name at the placeholder
segment and resolving at the computed position recovers the device name. -/
theorem C3_roundtrip (t dev : List Char)
    (hone : (t.splitOn '/').count DEVICE_MACRO = 1)
    (hdev : '/' ∉ dev) :
    device_name_from_topic_and_position
      ([('/' : Char)].intercalate
        ((t.splitOn '/').set (device_position_in_topic t) dev))
      (device_position_in_topic t) = some dev := by
  have hmem : DEVICE_MACRO ∈ t.splitOn '/' :=
    List.count_pos_iff.mp (by omega)
  have hi : device_position_in_topic t < (t.splitOn '/').length :=
    device_position_scan_lt_of_mem hmem
  have helems : ∀ l ∈ (t.splitOn '/').set (device_position_in_topic t) dev,
      '/' ∉ l := by
    intro l hl
    rcases List.mem_or_eq_of_mem_set hl with hl | rfl
    · exact splitOn_sep_not_mem t l hl
    · exact hdev
  have hne : (t.splitOn '/').set (device_position_in_topic t) dev ≠ [] := by
    apply List.ne_nil_of_length_pos
    rw [List.length_set]
    omega
  have hsplit :
      ([('/' : Char)].intercalate
        ((t.splitOn '/').set (device_position_in_topic t) dev)).splitOn '/' =
      (t.splitOn '/').set (device_position_in_topic t) dev :=
    List.splitOn_intercalate _ '/' helems hne
  simp only [device_name_from_topic_and_position]
  rw [hsplit, List.length_set, if_neg (not_le.mpr hi)]
  exact List.getElem?_set_self hi

/-- C3 witness at the default template and a concrete phone name. -/
theorem C3_roundtrip_witness :
    device_name_from_topic_and_position
      ([('/' : Char)].intercalate
        (("SleepAsAndroid/%%%device%%%".toList.splitOn '/').set
          (device_position_in_topic "SleepAsAndroid/%%%device%%%".toList)
          "phoneA".toList))
      (device_position_in_topic "SleepAsAndroid/%%%device%%%".toList) =
      some "phoneA".toList :=
  C3_roundtrip "SleepAsAndroid/%%%device%%%".toList "phoneA".toList
    (by decide) (by decide)

/-- C4 (amended): for a template with exactly one placeholder at computed
segment index i, resolution on any topic with more than i segments returns
the topic's segment i; and for a template with no placeholder — so the
computed position is the template's segment count — resolution on any
non-empty topic with at most that many segments returns the topic's last
segment. -/
theorem C4_resolution :
    (∀ t topic i, (t.splitOn '/').count DEVICE_MACRO = 1 →
      device_position_in_topic t = i →
      i < (topic.splitOn '/').length →
      device_name_from_topic_and_position topic i =
        (topic.splitOn '/')[i]?) ∧
    (∀ t topic, (t.splitOn '/').count DEVICE_MACRO = 0 →
      topic ≠ [] →
      (topic.splitOn '/').length ≤ (t.splitOn '/').length →
      device_name_from_topic_and_position topic (device_position_in_topic t) =
        (topic.splitOn '/').getLast?) := by
  constructor
  · intro t topic i _ _ hlen
    simp only [device_name_from_topic_and_position]
    rw [if_neg (not_le.mpr hlen)]
  · intro t topic hzero _ hlen
    have hpos : device_position_in_topic t = (t.splitOn '/').length :=
      device_position_scan_eq_length (List.count_eq_zero.mp hzero)
    simp only [device_name_from_topic_and_position]
    rw [hpos, if_pos hlen, List.getLast?_eq_getElem?]

/-- C4 witness: both parts applied at concrete templates and topics. -/
theorem C4_resolution_witness :
    device_name_from_topic_and_position "SleepAsAndroid/phoneA".toList 1 =
      ("SleepAsAndroid/phoneA".toList.splitOn '/')[1]? ∧
    device_name_from_topic_and_position "x/y".toList
        (device_position_in_topic "a/b".toList) =
      ("x/y".toList.splitOn '/').getLast? :=
  ⟨C4_resolution.1 "SleepAsAndroid/%%%device%%%".toList
      "SleepAsAndroid/phoneA".toList 1 (by decide) (by decide) (by decide),
   C4_resolution.2 "a/b".toList "x/y".toList (by decide) (by decide)
      (by decide)⟩

/-- C4 counterexample against the claim as stated: the template `a/b` has
no placeholder, yet resolution on the longer topic `w/x/y/z` returns the
segment at the clamped-free position 2, namely `y`, not the topic's last
segment `z`. -/
theorem C4_resolution_cex :
    ("a/b".toList.splitOn '/').count DEVICE_MACRO = 0 ∧
    device_position_in_topic "a/b".toList = 2 ∧
    device_name_from_topic_and_position "w/x/y/z".toList
      (device_position_in_topic "a/b".toList) = some "y".toList ∧
    ("w/x/y/z".toList.splitOn '/').getLast? = some "z".toList ∧
    ("y".toList : List Char) ≠ "z".toList := by decide

/-- C5: the computed device position is the index of the first segment
equal to the placeholder token — the segment count when none matches — and
the subscription topic is the template with that segment replaced by the
wildcard when the position is in bounds, and the template unchanged
otherwise. -/
theorem C5_wildcard_topic (t : List Char) :
    device_position_in_topic t =
      (t.splitOn '/').findIdx (fun p => p == DEVICE_MACRO) ∧
    topic_template t =
      (if device_position_in_topic t < (t.splitOn '/').length
       then [('/' : Char)].intercalate
         ((t.splitOn '/').set (device_position_in_topic t) ['+'])
       else t) := by
  refine ⟨device_position_scan_eq_findIdx _, ?_⟩
  by_cases h : device_position_in_topic t < (t.splitOn '/').length
  · rw [if_pos h]
    rfl
  · rw [if_neg h]
    unfold topic_template
    rw [List.set_eq_of_length_le (not_lt.mp h)]
    exact List.intercalate_splitOn t '/'

/-- C6: a payload that fails JSON decoding, or decodes to an object with no
`event` key, is dropped with one warning: the sensor is returned unchanged,
no notification is emitted, and no exception escapes. -/
theorem C6_malformed_dropped (sensor : Sensor) (payload : Payload)
    (h : payload = .invalid ∨
      ∃ fields, payload = .obj fields ∧ (dictPop fields "event").1 = none) :
    process_message sensor payload = .ok ⟨sensor, 0, 1⟩ := by
  rcases h with rfl | ⟨fields, rfl, hf⟩
  · rfl
  · cases hp : dictPop fields "event" with
    | mk o r =>
      rw [hp] at hf
      simp only at hf
      subst hf
      simp [process_message, hp]

/-- C6 witness: a non-JSON payload and an object payload without `event`. -/
theorem C6_malformed_dropped_witness :
    process_message (SleepAsAndroidLastEvent_init "phoneA".toList) .invalid =
      .ok ⟨SleepAsAndroidLastEvent_init "phoneA".toList, 0, 1⟩ ∧
    process_message (SleepAsAndroidLastEvent_init "phoneA".toList)
        (.obj [("foo", .str "bar")]) =
      .ok ⟨SleepAsAndroidLastEvent_init "phoneA".toList, 0, 1⟩ :=
  ⟨C6_malformed_dropped _ _ (Or.inl rfl),
   C6_malformed_dropped _ _ (Or.inr ⟨[("foo", .str "bar")], rfl, rfl⟩)⟩

/-- C7: a payload object whose `event` value is the literal string
`Unknown` is a logged no-op: one warning, the sensor unchanged, no
notification, no exception. -/
theorem C7_unknown_noop (sensor : Sensor) (fields : List (String × Json))
    (h : (dictPop fields "event").1 = some (.str "Unknown")) :
    process_message sensor (.obj fields) = .ok ⟨sensor, 0, 1⟩ := by
  cases hp : dictPop fields "event" with
  | mk o r =>
    rw [hp] at h
    simp only at h
    subst h
    simp [process_message, hp, isUnknownLiteral]

/-- C7 witness: a concrete test message with an extra attribute. -/
theorem C7_unknown_noop_witness :
    process_message (SleepAsAndroidLastEvent_init "phoneA".toList)
        (.obj [("event", .str "Unknown"), ("value", .str "test")]) =
      .ok ⟨SleepAsAndroidLastEvent_init "phoneA".toList, 0, 1⟩ :=
  C7_unknown_noop _ _ rfl

/-- C8: looking a device up twice returns the same sensor list both times
and leaves the registry unchanged, the creation-and-registration branch
runs on the second call never and on the first call exactly when the
device was absent, and afterwards the registry maps the device to that one
sensor list. -/
theorem C8_get_sensors_idempotent (registry : Registry) (device : List Char) :
    (get_sensors (get_sensors registry device).2.1 device).1 =
        (get_sensors registry device).1 ∧
    (get_sensors (get_sensors registry device).2.1 device).2.1 =
        (get_sensors registry device).2.1 ∧
    (get_sensors (get_sensors registry device).2.1 device).2.2 = false ∧
    (get_sensors registry device).2.2 = (dictGet registry device).isNone ∧
    dictGet (get_sensors registry device).2.1 device =
        some (get_sensors registry device).1 := by
  cases h : dictGet registry device with
  | none => simp [get_sensors, h, dictGet]
  | some ss => simp [get_sensors, h]

/-- C9 (amended): removal first strips the integration name plus one
following character from the given display name whenever the name merely
starts with the integration name — even when the next character is not a
separator, and even when nothing follows at all — and then pops that key:
it returns the registry entry at the key (or `none`) and removes it,
leaving the registry unchanged when the key is absent. -/
theorem C9_remove_sensor (name : List Char) (registry : Registry)
    (sensor_name : List Char) :
    (remove_sensor name registry sensor_name).1 =
      dictGet registry
        (if name.isPrefixOf sensor_name
         then sensor_name.drop (name.length + 1) else sensor_name) ∧
    (remove_sensor name registry sensor_name).2 =
      dictRemove registry
        (if name.isPrefixOf sensor_name
         then sensor_name.drop (name.length + 1) else sensor_name) ∧
    (dictGet registry
        (if name.isPrefixOf sensor_name
         then sensor_name.drop (name.length + 1) else sensor_name) = none →
      (remove_sensor name registry sensor_name).2 = registry) := by
  unfold remove_sensor
  rw [dictPop_eq]
  exact ⟨rfl, rfl, fun h => dictRemove_of_get_none h⟩

/-- C9 witness at a stripped lookup that succeeds: the integration name is
`N`, the device display name is `N_phoneA`, and the registry holds the
bare key `phoneA`. -/
theorem C9_remove_sensor_witness :
    (remove_sensor "N".toList
        [("phoneA".toList, [SleepAsAndroidLastEvent_init "phoneA".toList])]
        "N_phoneA".toList).1 =
      some [SleepAsAndroidLastEvent_init "phoneA".toList] ∧
    (remove_sensor "N".toList [] "N_phoneA".toList).2 = [] := by
  have h := C9_remove_sensor "N".toList
    [("phoneA".toList, [SleepAsAndroidLastEvent_init "phoneA".toList])]
    "N_phoneA".toList
  have h₂ := C9_remove_sensor "N".toList [] "N_phoneA".toList
  exact ⟨h.1, h₂.2.2 rfl⟩

/-- C9 counterexample against the claim as stated: the device display name
equals the integration name with no separator (indeed nothing) after it,
so by the claim the raw name should be used and the present entry
returned; the code still strips, looks up the empty key, and returns
`none` with the registry unchanged. -/
theorem C9_remove_sensor_cex :
    (remove_sensor "SleepAsAndroid".toList
        [("SleepAsAndroid".toList,
          [SleepAsAndroidLastEvent_init "SleepAsAndroid".toList])]
        "SleepAsAndroid".toList).1 = none ∧
    (remove_sensor "SleepAsAndroid".toList
        [("SleepAsAndroid".toList,
          [SleepAsAndroidLastEvent_init "SleepAsAndroid".toList])]
        "SleepAsAndroid".toList).2 =
      [("SleepAsAndroid".toList,
        [SleepAsAndroidLastEvent_init "SleepAsAndroid".toList])] ∧
    dictGet
      [("SleepAsAndroid".toList,
        [SleepAsAndroidLastEvent_init "SleepAsAndroid".toList])]
      "SleepAsAndroid".toList =
      some [SleepAsAndroidLastEvent_init "SleepAsAndroid".toList] :=
  ⟨rfl, rfl, rfl⟩

/-- C10: device resolution is total — on every topic string and every
position it returns a segment of the topic's split without raising — and
the empty topic resolves to the empty device name instead of signalling an
input-validation error. -/
theorem C10_resolution_total (topic : List Char) (position : Nat) :
    (∃ seg, device_name_from_topic_and_position topic position = some seg ∧
      seg ∈ topic.splitOn '/') ∧
    device_name_from_topic_and_position [] position = some [] := by
  constructor
  · have hpos : 0 < (topic.splitOn '/').length := splitOn_length_pos '/' topic
    simp only [device_name_from_topic_and_position]
    by_cases h : (topic.splitOn '/').length ≤ position
    · rw [if_pos h]
      have hlt : (topic.splitOn '/').length - 1 < (topic.splitOn '/').length :=
        by omega
      exact ⟨_, List.getElem?_eq_getElem hlt,
        List.getElem?_mem (List.getElem?_eq_getElem hlt)⟩
    · rw [if_neg h]
      have hlt : position < (topic.splitOn '/').length := not_le.mp h
      exact ⟨_, List.getElem?_eq_getElem hlt,
        List.getElem?_mem (List.getElem?_eq_getElem hlt)⟩
  · have hlen : (([] : List Char).splitOn '/').length = 1 := rfl
    simp only [device_name_from_topic_and_position, hlen]
    by_cases hp : 1 ≤ position
    · rw [if_pos hp]
      rfl
    · rw [if_neg hp]
      have hzero : position = 0 := by omega
      subst hzero
      rfl
